import Mathlib

/-!
Verification of the Google Smart Home fulfillment core of the
GoogleHomeServer repository (`src/routes/smarthome.routes.js`,
`src/database/models.js`, `src/services/thingsboard.service.js`).

The JavaScript code is shallowly embedded: SQLite-backed model classes
become pure functions over an explicit in-memory database value, the
ThingsBoard HTTP client becomes a `Gateway` oracle recording the outcome
of each network call, and exceptions become explicit `Except`/`Option`
values.  JavaScript quirks that matter (falsy `||` coalescing, object
key overwrite semantics, `jwt.decode` not verifying signatures) are
modelled explicitly.
-/

/-! ## JavaScript value primitives -/

/-- A JSON-ish JavaScript value as it appears in telemetry payloads. -/
inductive JVal
  | num (n : Int)
  | bool (b : Bool)
  | str (s : String)
  | null
deriving DecidableEq

/-- Template-literal stringification, as in the backtick string of
`convertToGoogleState` producing the label from a telemetry value. -/
def jvalToString : JVal → String
  | .num n => toString n
  | .bool b => if b then "true" else "false"
  | .str s => s
  | .null => "null"

/-- JavaScript `a || b` for a possibly-absent string `a`: an absent value
and the empty string are both falsy and fall through to `b`. -/
def jsOrStr (a : Option String) (b : String) : String :=
  match a with
  | some s => if s = "" then b else s
  | none => b

/-- JavaScript `a || null` for a possibly-absent string `a`: the empty
string is falsy and collapses to null. -/
def jsOrNull (a : Option String) : Option String :=
  match a with
  | some s => if s = "" then none else some s
  | none => none

/-- Helper for JavaScript `String.prototype.includes` on char lists. -/
def strIncludesAux (needle : List Char) : List Char → Bool
  | [] => needle.isEmpty
  | c :: rest => needle.isPrefixOf (c :: rest) || strIncludesAux needle rest

/-- JavaScript `s.includes(sub)`: substring containment. -/
def strIncludes (s sub : String) : Bool :=
  strIncludesAux sub.toList s.toList

/-- A thrown JavaScript `Error`, reduced to its message. -/
structure Exn where
  message : String
deriving DecidableEq

/-! ## Data model (rows of `src/database/db.js` tables, as returned by
the model classes of `src/database/models.js`) -/

/-- A row of the `devices` table as returned by `DeviceModel` lookups
(capabilities already `JSON.parse`d into a list of strings).  The table
has no `device_id` column, so the `device.device_id` access in
`convertGoogleCommandToRpc` sees `undefined` on rows from the registry;
the field is kept as an `Option` to translate that access faithfully. -/
structure Device where
  device_uuid : String
  thingsboard_device_id : String := ""
  device_name : String := ""
  device_type : String := ""
  device_label : Option String := none
  capabilities : List String := []
  owner_user_id : Nat := 0
  is_online : Nat := 0
  is_active : Bool := true
  provisioned_at : Nat := 0
  device_id : Option String := none
deriving DecidableEq

/-- A row of the `google_account_links` table. -/
structure AccountLink where
  user_id : Nat := 0
  google_agent_user_id : String := ""
  is_active : Bool := true
  last_sync_at : Nat := 0
deriving DecidableEq

/-- The persistent registry: rows in table/insertion order. -/
structure Db where
  devices : List Device := []
  links : List AccountLink := []
deriving DecidableEq

/-- `DeviceModel.findByUuid`: `SELECT * FROM devices WHERE device_uuid = ?
AND is_active = 1` via `stmt.get` (first matching row). -/
def DeviceModel.findByUuid (db : Db) (deviceUuid : String) : Option Device :=
  (db.devices.filter (fun d => d.device_uuid == deviceUuid && d.is_active)).head?

/-- `DeviceModel.findAllForSync`: active devices of one owner,
`ORDER BY provisioned_at ASC` (stable sort over insertion order). -/
def DeviceModel.findAllForSync (db : Db) (ownerUserId : Nat) : List Device :=
  (db.devices.filter (fun d => d.owner_user_id == ownerUserId && d.is_active)).mergeSort
    (fun a b => a.provisioned_at ≤ b.provisioned_at)

/-- `GoogleAccountLinkModel.findByAgentUserId`: `SELECT * FROM
google_account_links WHERE google_agent_user_id = ? AND is_active = 1`. -/
def GoogleAccountLinkModel.findByAgentUserId (db : Db) (googleAgentUserId : String) :
    Option AccountLink :=
  (db.links.filter (fun l => l.google_agent_user_id == googleAgentUserId && l.is_active)).head?

/-- `GoogleAccountLinkModel.disconnect`: `UPDATE google_account_links SET
is_active = 0 WHERE google_agent_user_id = ?` (soft delete, row kept). -/
def GoogleAccountLinkModel.disconnect (db : Db) (googleAgentUserId : String) : Db :=
  { db with
    links := db.links.map (fun l =>
      if l.google_agent_user_id == googleAgentUserId then { l with is_active := false } else l) }

/-- `GoogleAccountLinkModel.updateLastSync`: `UPDATE google_account_links
SET last_sync_at = ? WHERE google_agent_user_id = ?`. -/
def GoogleAccountLinkModel.updateLastSync (db : Db) (googleAgentUserId : String) (now : Nat) :
    Db :=
  { db with
    links := db.links.map (fun l =>
      if l.google_agent_user_id == googleAgentUserId then { l with last_sync_at := now } else l) }

/-! ## SYNC translator: `convertToGoogleDevice` -/

/-- The `name` block of a Google device descriptor. -/
structure GoogleDeviceName where
  defaultNames : List String
  name : String
  nicknames : List String
deriving DecidableEq

/-- The `deviceInfo` block of a Google device descriptor. -/
structure GoogleDeviceInfo where
  manufacturer : String
  model : String
  hwVersion : String
  swVersion : String
deriving DecidableEq

/-- A Google Smart Home device descriptor (SYNC response element). -/
structure GoogleDevice where
  id : String
  type : String
  traits : List String
  name : GoogleDeviceName
  willReportState : Bool
  deviceInfo : GoogleDeviceInfo
deriving DecidableEq

/-- `convertToGoogleDevice` from `smarthome.routes.js`: starts from the
OUTLET/OnOff defaults, then the if/else-if chain reassigns type and
traits, pushing Brightness in the light branch when `dimmer` is
present. -/
def convertToGoogleDevice (device : Device) : GoogleDevice :=
  let capabilities := device.capabilities
  let deviceType0 := "action.devices.types.OUTLET"
  let traits0 := ["action.devices.traits.OnOff"]
  let (deviceType, traits) :=
    if capabilities.contains "light" || capabilities.contains "dimmer" then
      ("action.devices.types.LIGHT",
        if capabilities.contains "dimmer" then
          ["action.devices.traits.OnOff", "action.devices.traits.Brightness"]
        else
          ["action.devices.traits.OnOff"])
    else if capabilities.contains "fan" || capabilities.contains "speed" then
      ("action.devices.types.FAN",
        ["action.devices.traits.OnOff", "action.devices.traits.FanSpeed"])
    else if capabilities.contains "outlet" then
      ("action.devices.types.OUTLET", ["action.devices.traits.OnOff"])
    else
      (deviceType0, traits0)
  { id := device.device_uuid
    type := deviceType
    traits := traits
    name :=
      { defaultNames := [device.device_name]
        name := jsOrStr device.device_label device.device_name
        nicknames := [jsOrStr device.device_label device.device_name] }
    willReportState := true
    deviceInfo :=
      { manufacturer := "Smart Home Panel"
        model := device.device_type
        hwVersion := "1.0"
        swVersion := "1.0" } }

/-- The mapping policy exactly as the specification words it (§4.1
`deviceToDescriptor`, priority order with first match winning), written
independently of the code for comparison with `convertToGoogleDevice`. -/
def specDeviceTypeTraits (capabilities : List String) : String × List String :=
  if capabilities.contains "light" || capabilities.contains "dimmer" then
    ("action.devices.types.LIGHT",
      ["action.devices.traits.OnOff"] ++
        (if capabilities.contains "dimmer" then ["action.devices.traits.Brightness"] else []))
  else if capabilities.contains "fan" || capabilities.contains "speed" then
    ("action.devices.types.FAN",
      ["action.devices.traits.OnOff", "action.devices.traits.FanSpeed"])
  else if capabilities.contains "outlet" then
    ("action.devices.types.OUTLET", ["action.devices.traits.OnOff"])
  else
    ("action.devices.types.OUTLET", ["action.devices.traits.OnOff"])

/-! ## Gateway and the ThingsBoard service layer
(`src/services/thingsboard.service.js`)

The raw network outcome of each ThingsBoard HTTP call is an oracle; the
service-layer wrappers reproduce the try/catch of the source: the
telemetry and attribute getters swallow every failure into `null`
(`return null` in their catch blocks), while `sendRpcCommand` rethrows a
wrapped error. -/

/-- One `{ts, value}` element of a telemetry time series (only `value`
is ever read by the fulfillment code). -/
structure TelemetryEntry where
  value : JVal
deriving DecidableEq

/-- A telemetry response: JSON object keyed by telemetry key. -/
abbrev Telemetry := List (String × List TelemetryEntry)

/-- An attributes response (opaque to the fulfillment code). -/
abbrev Attributes := List (String × JVal)

/-- Raw outcomes of the ThingsBoard HTTP calls made on behalf of a
device, indexed by the arguments of each call. -/
structure Gateway where
  telemetryResult : String → List String → Except Exn Telemetry
  attributesResult : String → String → Except Exn Attributes
  rpcResult : String → String → String → Except Exn Unit

/-- `thingsboardService.getLatestTelemetry`: the whole body, token
acquisition and HTTP call included, sits in a try whose catch logs and
`return null` — a Gateway failure never propagates as an exception. -/
def ThingsboardService.getLatestTelemetry (gw : Gateway) (deviceId : String)
    (keys : List String) : Option Telemetry :=
  match gw.telemetryResult deviceId keys with
  | .ok data => some data
  | .error _ => none

/-- `thingsboardService.getDeviceAttributes`: same catch-to-`null`
structure as `getLatestTelemetry`. -/
def ThingsboardService.getDeviceAttributes (gw : Gateway) (deviceId : String)
    (scope : String) : Option Attributes :=
  match gw.attributesResult deviceId scope with
  | .ok data => some data
  | .error _ => none

/-- `thingsboardService.sendRpcCommand`: on failure the catch rethrows
`new Error('RPC command failed: ...')`. -/
def ThingsboardService.sendRpcCommand (gw : Gateway) (deviceId : String)
    (method : String) (rpcParamsKey : String) : Except Exn Unit :=
  match gw.rpcResult deviceId method rpcParamsKey with
  | .ok u => .ok u
  | .error e => .error { message := "RPC command failed: " ++ e.message }

/-! ## EXECUTE translator: `convertGoogleCommandToRpc` -/

/-- The `params` object of one Google command execution; each field may
be absent in the incoming JSON.  The JSON field named `on` is called
`onState` here because `on` is reserved in Lean. -/
structure GParams where
  onState : Option Bool := none
  fanSpeed : Option String := none
  brightness : Option Int := none
deriving DecidableEq

/-- The `params` object of an outgoing ThingsBoard RPC, one shape per
RPC method. -/
inductive RpcParams
  | deviceState (device_id : String) (state : Option Bool)
  | fanSpeed (speed : Nat)
  | brightness (brightness : Option Int)
deriving DecidableEq

/-- A canonical string key for an `RpcParams` value, used to index the
Gateway RPC oracle by the parameters actually sent. -/
def RpcParams.key : RpcParams → String
  | .deviceState d s => "deviceState:" ++ d ++ ":" ++ toString s
  | .fanSpeed n => "fanSpeed:" ++ toString n
  | .brightness b => "brightness:" ++ toString b

/-- The `resultState` fragment echoed back in a SUCCESS entry
(`onState` renders the JSON field `on`). -/
structure EchoState where
  onState : Option Bool := none
  currentFanSpeedSetting : Option String := none
  brightness : Option Int := none
deriving DecidableEq

/-- The translation result: RPC method, params, echoable state. -/
structure RpcCommand where
  method : String
  params : RpcParams
  resultState : EchoState
deriving DecidableEq

/-- The `speedMap` lookup table of the SetFanSpeed branch. -/
def speedMap : List (String × Nat) :=
  [("speed_0", 0), ("speed_1", 1), ("speed_2", 2),
   ("speed_3", 3), ("speed_4", 4), ("speed_5", 5)]

/-- `speedMap[params.fanSpeed] || 0`: exact-match lookup, any miss (or
absent label) is falsy and defaults to 0; `speed_0` maps to the falsy 0
and the `|| 0` leaves it at 0. -/
def speedLookup (fanSpeed : Option String) : Nat :=
  match fanSpeed with
  | none => 0
  | some label =>
    match speedMap.lookup label with
    | some n => n
    | none => 0

/-- `convertGoogleCommandToRpc` from `smarthome.routes.js`: the switch
over the Google command name, returning `null` (here `none`) for a
failed capability precondition or an unrecognized command. -/
def convertGoogleCommandToRpc (googleCommand : String) (params : GParams)
    (device : Device) : Option RpcCommand :=
  let capabilities := device.capabilities
  if googleCommand = "action.devices.commands.OnOff" then
    some
      { method := "setDeviceState"
        params := .deviceState (jsOrStr device.device_id "device1") params.onState
        resultState := { onState := params.onState } }
  else if googleCommand = "action.devices.commands.SetFanSpeed" then
    if capabilities.contains "fan" || capabilities.contains "speed" then
      let speed := speedLookup params.fanSpeed
      some
        { method := "setFanSpeed"
          params := .fanSpeed speed
          resultState := { currentFanSpeedSetting := params.fanSpeed } }
    else
      none
  else if googleCommand = "action.devices.commands.BrightnessAbsolute" then
    if capabilities.contains "dimmer" then
      some
        { method := "setBrightness"
          params := .brightness params.brightness
          resultState := { brightness := params.brightness } }
    else
      none
  else
    none

/-! ## QUERY state conversion: `convertToGoogleState` -/

/-- The Google state fragment built by `convertToGoogleState`
(`onState` renders the JSON field `on`). -/
structure GoogleState where
  onState : Bool := false
  currentFanSpeedSetting : Option String := none
deriving DecidableEq

/-- `convertToGoogleState` from `smarthome.routes.js`: `device` and
`attributes` are accepted but never read; with `null` telemetry the
state stays `{on: false}`; otherwise `on` is the strict-equality OR over
the first value of every key containing both "device" and "state", and
a fan-speed label is attached when `telemetry.fan_speed` is a nonempty
series. -/
def convertToGoogleState (device : Device) (telemetry : Option Telemetry)
    (attributes : Option Attributes) : GoogleState :=
  match telemetry with
  | none => { onState := false }
  | some t =>
    let deviceStates :=
      (t.filter (fun kv => strIncludes kv.1 "device" && strIncludes kv.1 "state")).map
        (fun kv => kv.2.head?.map (fun e => e.value))
    let onFlag := deviceStates.any
      (fun s => s == some (JVal.num 1) || s == some (JVal.bool true))
    let fan :=
      match t.lookup "fan_speed" with
      | some (e :: _) => some ("speed_" ++ jvalToString e.value)
      | _ => none
    { onState := onFlag, currentFanSpeedSetting := fan }

/-! ## Requests, bearer tokens and `extractAgentUserId` -/

/-- The decoded payload (claims) of a JWT.  `exp` is carried to show it
is never consulted. -/
structure JwtPayload where
  agentUserId : Option String := none
  exp : Option Int := none
deriving DecidableEq

/-- A bearer token: either syntactically undecodable, or decodable into
a payload accompanied by a signature part whose cryptographic validity
is recorded but, like `exp`, never examined by `jwt.decode`. -/
inductive Token
  | undecodable
  | decodable (payload : JwtPayload) (signature : String) (signatureValid : Bool)
deriving DecidableEq

/-- The Authorization header: absent, present without the `Bearer `
scheme, or a bearer token. -/
inductive AuthHeaderVal
  | nonBearer (raw : String)
  | bearer (token : Token)
deriving DecidableEq

/-- One element of QUERY `payload.devices` / EXECUTE `command.devices`. -/
structure DeviceRef where
  id : String
deriving DecidableEq

/-- One element of an EXECUTE `command.execution` list. -/
structure Execution where
  command : String
  params : GParams := {}
deriving DecidableEq

/-- One element of the EXECUTE `payload.commands` list. -/
structure CommandGroup where
  devices : List DeviceRef := []
  execution : List Execution := []
deriving DecidableEq

/-- The intent payload (duck-typed in the source: QUERY reads
`payload.devices`, EXECUTE reads `payload.commands`). -/
structure GPayload where
  devices : List DeviceRef := []
  commands : List CommandGroup := []
deriving DecidableEq

/-- One element of the envelope `inputs` array. -/
structure GInput where
  intent : String
  payload : GPayload := {}
deriving DecidableEq

/-- An incoming fulfillment request (`req.headers.authorization` plus
the parsed JSON body fields the route reads). -/
structure Req where
  authorization : Option AuthHeaderVal := none
  requestId : Option String := none
  inputs : Option (List GInput) := none
deriving DecidableEq

/-- `jwt.decode(token)`: decodes the payload of any well-formed token
without verifying the signature or the expiry; yields null on a
syntactically undecodable token. -/
def jwtDecode : Token → Option JwtPayload
  | .undecodable => none
  | .decodable payload _ _ => some payload

/-- `extractAgentUserId` from `smarthome.routes.js`: requires a
`Bearer `-schemed Authorization header, decodes (never verifies) the
token, and returns `decoded?.agentUserId || null`. -/
def extractAgentUserId (req : Req) : Option String :=
  match req.authorization with
  | none => none
  | some (.nonBearer _) => none
  | some (.bearer token) =>
    match jwtDecode token with
    | none => none
    | some decoded => jsOrNull decoded.agentUserId

/-! ## The request environment and response shapes -/

/-- Everything one request execution depends on: the registry snapshot,
the Gateway oracle, the wall clock, the `NODE_ENV` environment variable
(carried to show the fulfillment route never reads it), and failure
oracles for the two fallible registry operations (`better-sqlite3` /
`JSON.parse` may throw). -/
structure Env where
  db : Db
  gw : Gateway
  nodeEnv : String := "development"
  now : Nat := 0
  findExn : String → Option Exn := fun _ => none
  disconnectExn : Option Exn := none

/-- `DeviceModel.findByUuid` as called from a handler: the underlying
database driver or `JSON.parse` may throw, which the per-device
try/catch of the handlers observes. -/
def findByUuidChecked (env : Env) (deviceUuid : String) : Except Exn (Option Device) :=
  match env.findExn deviceUuid with
  | some e => .error e
  | none => .ok (DeviceModel.findByUuid env.db deviceUuid)

/-- One per-device QUERY result: the `deviceStates[deviceId]` value. -/
inductive QueryEntry
  | success (online : Bool) (state : GoogleState)
  | error (errorCode : String)
deriving DecidableEq

/-- One element of the EXECUTE response `commands` array. -/
inductive ExecEntry
  | success (ids : List String) (online : Bool) (states : EchoState)
  | error (ids : List String) (errorCode : String)
deriving DecidableEq

/-- The body of an HTTP response from the fulfillment route. -/
inductive RespPayload
  | invalidFormat
  | errorCode (code : String) (debugString : Option String)
  | syncPayload (agentUserId : String) (devices : List GoogleDevice)
  | queryPayload (devices : List (String × QueryEntry))
  | execPayload (commands : List ExecEntry)
  | emptyPayload
deriving DecidableEq

/-- An HTTP response: status code, the `requestId` echoed in the body
(absent for the 400 invalid-format response), and the payload. -/
structure HttpResponse where
  status : Nat
  requestId : Option String := none
  payload : RespPayload
deriving DecidableEq

/-- JavaScript object assignment `m[k] = v`: overwrite in place if the
key exists, else append. -/
def objSet {α : Type} (m : List (String × α)) (k : String) (v : α) : List (String × α) :=
  if m.any (fun p => p.1 == k) then
    m.map (fun p => if p.1 == k then (k, v) else p)
  else
    m ++ [(k, v)]

/-- Runtime message of reading `.intent` off `inputs[0]` when the
`inputs` array is empty. -/
def undefinedIntentMsg : String := "Cannot read properties of undefined (reading 'intent')"

/-- Runtime message of reading `.payload` off `inputs[0]` when the
`inputs` array is empty. -/
def undefinedPayloadMsg : String := "Cannot read properties of undefined (reading 'payload')"

/-! ## QUERY handler -/

/-- The telemetry keys requested by `handleQuery`. -/
def queryKeys : List String :=
  ["device1_state", "device2_state", "device3_state", "device4_state", "fan_speed"]

/-- The try-block of one iteration of the `handleQuery` device loop:
registry lookup (fallible), ownership check, two Gateway reads through
the service layer (infallible: their failures come back as `none`),
state conversion. -/
def queryDeviceBody (env : Env) (accountLink : AccountLink) (deviceId : String) :
    Except Exn QueryEntry :=
  match findByUuidChecked env deviceId with
  | .error e => .error e
  | .ok none => .ok (.error "deviceNotFound")
  | .ok (some device) =>
    if device.owner_user_id != accountLink.user_id then
      .ok (.error "deviceNotFound")
    else
      let telemetry :=
        ThingsboardService.getLatestTelemetry env.gw device.thingsboard_device_id queryKeys
      let attributes :=
        ThingsboardService.getDeviceAttributes env.gw device.thingsboard_device_id "SERVER_SCOPE"
      .ok (.success (device.is_online == 1) (convertToGoogleState device telemetry attributes))

/-- One iteration of the `handleQuery` device loop with its catch:
a thrown exception becomes the per-device `hardError` entry. -/
def queryDevice (env : Env) (accountLink : AccountLink) (deviceId : String) : QueryEntry :=
  match queryDeviceBody env accountLink deviceId with
  | .ok entry => entry
  | .error _ => .error "hardError"

/-- The `deviceStates` object after the `handleQuery` loop. -/
def handleQueryStates (env : Env) (accountLink : AccountLink)
    (requestedDevices : List DeviceRef) : List (String × QueryEntry) :=
  requestedDevices.foldl
    (fun states reqDevice => objSet states reqDevice.id (queryDevice env accountLink reqDevice.id))
    []

/-- `handleQuery`: token resolution, account-link lookup, then the
device loop.  Reading `inputs[0].payload` of an empty `inputs` array
throws and is converted by the handler's own catch into a 500
`hardError` response. -/
def handleQuery (env : Env) (req : Req) : HttpResponse :=
  match extractAgentUserId req with
  | none => { status := 401, requestId := req.requestId, payload := .errorCode "authFailure" none }
  | some agentUserId =>
    match GoogleAccountLinkModel.findByAgentUserId env.db agentUserId with
    | none =>
      { status := 401, requestId := req.requestId, payload := .errorCode "authFailure" none }
    | some accountLink =>
      match req.inputs with
      | some (input :: _) =>
        { status := 200, requestId := req.requestId
          payload := .queryPayload (handleQueryStates env accountLink input.payload.devices) }
      | _ =>
        { status := 500, requestId := req.requestId
          payload := .errorCode "hardError" (some undefinedPayloadMsg) }

/-! ## EXECUTE handler -/

/-- The inner `command.execution` loop for one found-and-owned device:
translate each execution; an unsupported translation pushes a
`functionNotSupported` entry and moves on; a successful translation
issues the RPC, which may throw — the throw abandons the remaining
executions, keeping the entries pushed so far and surfacing the
exception to the per-device catch. -/
def runExecutions (env : Env) (dbDevice : Device) (deviceId : String) :
    List Execution → List ExecEntry × Option Exn
  | [] => ([], none)
  | execution :: rest =>
    match convertGoogleCommandToRpc execution.command execution.params dbDevice with
    | some rpcCommand =>
      match ThingsboardService.sendRpcCommand env.gw dbDevice.thingsboard_device_id
          rpcCommand.method rpcCommand.params.key with
      | .ok _ =>
        let (entries, exn) := runExecutions env dbDevice deviceId rest
        (.success [deviceId] true rpcCommand.resultState :: entries, exn)
      | .error e => ([], some e)
    | none =>
      let (entries, exn) := runExecutions env dbDevice deviceId rest
      (.error [deviceId] "functionNotSupported" :: entries, exn)

/-- One iteration of the `handleExecute` device loop, with its
try/catch: registry throw or RPC throw becomes a single `hardError`
entry; a missing or foreign device becomes a single `deviceNotFound`
entry (the execution list is never entered). -/
def execDevice (env : Env) (accountLink : AccountLink) (deviceId : String)
    (executions : List Execution) : List ExecEntry :=
  match findByUuidChecked env deviceId with
  | .error _ => [.error [deviceId] "hardError"]
  | .ok none => [.error [deviceId] "deviceNotFound"]
  | .ok (some dbDevice) =>
    if dbDevice.owner_user_id != accountLink.user_id then
      [.error [deviceId] "deviceNotFound"]
    else
      let (entries, exn) := runExecutions env dbDevice deviceId executions
      entries ++ (match exn with | some _ => [.error [deviceId] "hardError"] | none => [])

/-- The `commandResults` array after the nested `handleExecute` loops. -/
def handleExecuteResults (env : Env) (accountLink : AccountLink)
    (commands : List CommandGroup) : List ExecEntry :=
  commands.flatMap (fun command =>
    command.devices.flatMap (fun device => execDevice env accountLink device.id command.execution))

/-- `handleExecute`: token resolution, account-link lookup, then the
nested command/device loops. -/
def handleExecute (env : Env) (req : Req) : HttpResponse :=
  match extractAgentUserId req with
  | none => { status := 401, requestId := req.requestId, payload := .errorCode "authFailure" none }
  | some agentUserId =>
    match GoogleAccountLinkModel.findByAgentUserId env.db agentUserId with
    | none =>
      { status := 401, requestId := req.requestId, payload := .errorCode "authFailure" none }
    | some accountLink =>
      match req.inputs with
      | some (input :: _) =>
        { status := 200, requestId := req.requestId
          payload := .execPayload (handleExecuteResults env accountLink input.payload.commands) }
      | _ =>
        { status := 500, requestId := req.requestId
          payload := .errorCode "hardError" (some undefinedPayloadMsg) }

/-! ## SYNC and DISCONNECT handlers -/

/-- `handleSync`: resolve the caller, load their active devices in
provisioning order, translate each, update the last-sync timestamp. -/
def handleSync (env : Env) (req : Req) : Env × HttpResponse :=
  match extractAgentUserId req with
  | none =>
    (env, { status := 401, requestId := req.requestId, payload := .errorCode "authFailure" none })
  | some agentUserId =>
    match GoogleAccountLinkModel.findByAgentUserId env.db agentUserId with
    | none =>
      (env, { status := 401, requestId := req.requestId, payload := .errorCode "authFailure" none })
    | some accountLink =>
      let devices := DeviceModel.findAllForSync env.db accountLink.user_id
      let googleDevices := devices.map convertToGoogleDevice
      ({ env with db := GoogleAccountLinkModel.updateLastSync env.db agentUserId env.now },
       { status := 200, requestId := req.requestId
         payload := .syncPayload agentUserId googleDevices })

/-- `handleDisconnect`: an unresolvable token short-circuits to an
empty-payload success; otherwise the link rows are soft-deleted — and
should that update throw, the catch still answers with the same
empty-payload success (no status override, no error code). -/
def handleDisconnect (env : Env) (req : Req) : Env × HttpResponse :=
  match extractAgentUserId req with
  | none => (env, { status := 200, requestId := req.requestId, payload := .emptyPayload })
  | some agentUserId =>
    match env.disconnectExn with
    | some _ => (env, { status := 200, requestId := req.requestId, payload := .emptyPayload })
    | none =>
      ({ env with db := GoogleAccountLinkModel.disconnect env.db agentUserId },
       { status := 200, requestId := req.requestId, payload := .emptyPayload })

/-! ## The fulfillment route (envelope boundary) -/

/-- The try-block of `router.post('/fulfillment')`: envelope validation
(`!requestId || !inputs` — the empty string is falsy, an empty array is
truthy), then `inputs[0].intent` (which throws on an empty array), then
the four-way intent dispatch. -/
def routeBody (env : Env) (req : Req) : Except Exn (Env × HttpResponse) :=
  match req.requestId, req.inputs with
  | some requestId, some inputs =>
    if requestId = "" then
      .ok (env, { status := 400, requestId := none, payload := .invalidFormat })
    else
      match inputs with
      | [] => .error { message := undefinedIntentMsg }
      | input :: _ =>
        if input.intent = "action.devices.SYNC" then
          .ok (handleSync env req)
        else if input.intent = "action.devices.QUERY" then
          .ok (env, handleQuery env req)
        else if input.intent = "action.devices.EXECUTE" then
          .ok (env, handleExecute env req)
        else if input.intent = "action.devices.DISCONNECT" then
          .ok (handleDisconnect env req)
        else
          .ok (env, { status := 400, requestId := some requestId
                      payload := .errorCode "notSupported" none })
  | _, _ => .ok (env, { status := 400, requestId := none, payload := .invalidFormat })

/-- The route with its envelope-boundary catch: any exception becomes a
500 response echoing `req.body.requestId` with `hardError` and the
error's own message as `debugString` — the handler contains no
`NODE_ENV` test, so `env.nodeEnv` is never consulted. -/
def fulfillmentRoute (env : Env) (req : Req) : Env × HttpResponse :=
  match routeBody env req with
  | .ok result => result
  | .error e =>
    (env, { status := 500, requestId := req.requestId
            payload := .errorCode "hardError" (some e.message) })

/-! ## Concrete fixtures used by witnesses and counterexamples -/

/-- A Gateway whose every call succeeds (empty telemetry/attributes). -/
def gwOk : Gateway :=
  { telemetryResult := fun _ _ => .ok []
    attributesResult := fun _ _ => .ok []
    rpcResult := fun _ _ _ => .ok () }

/-- A Gateway whose every call fails with a network error. -/
def gwDown : Gateway :=
  { telemetryResult := fun _ _ => .error { message := "Network Error" }
    attributesResult := fun _ _ => .error { message := "Network Error" }
    rpcResult := fun _ _ _ => .error { message := "Network Error" } }

/-- A decodable bearer token for subject "alice" whose signature is
cryptographically invalid. -/
def tokenAlice : Token := .decodable { agentUserId := some "alice" } "bad-signature" false

/-- Active account link binding subject "alice" to user 1. -/
def linkAlice : AccountLink := { user_id := 1, google_agent_user_id := "alice" }

/-- A dimmable light owned by user 1, provisioned second. -/
def deviceD1 : Device :=
  { device_uuid := "d1", thingsboard_device_id := "tb1", device_name := "Lamp"
    device_type := "light", capabilities := ["light", "dimmer"]
    owner_user_id := 1, provisioned_at := 100 }

/-- A fan owned by user 1, provisioned first, currently online. -/
def deviceD2 : Device :=
  { device_uuid := "d2", thingsboard_device_id := "tb2", device_name := "Fan"
    device_type := "fan", capabilities := ["fan", "speed"]
    owner_user_id := 1, is_online := 1, provisioned_at := 50 }

/-- A soft-deleted device of user 1. -/
def deviceD3 : Device :=
  { device_uuid := "d3", thingsboard_device_id := "tb3", device_name := "Old"
    device_type := "outlet", capabilities := ["outlet"]
    owner_user_id := 1, is_active := false, provisioned_at := 10 }

/-- An active device owned by a different user (user 2). -/
def deviceD4 : Device :=
  { device_uuid := "d4", thingsboard_device_id := "tb4", device_name := "Foreign"
    device_type := "outlet", capabilities := ["outlet"]
    owner_user_id := 2, provisioned_at := 20 }

/-- The registry fixture. -/
def dbMain : Db :=
  { devices := [deviceD1, deviceD2, deviceD3, deviceD4], links := [linkAlice] }

/-- Environment with a healthy Gateway. -/
def envOk : Env := { db := dbMain, gw := gwOk }

/-- Environment whose Gateway is down. -/
def envGwDown : Env := { db := dbMain, gw := gwDown }

/-- Environment with a healthy Gateway running with NODE_ENV set to
production. -/
def envProd : Env := { db := dbMain, gw := gwOk, nodeEnv := "production" }

/-- A QUERY request from alice for devices d1, d4 and d2. -/
def reqQuery : Req :=
  { authorization := some (.bearer tokenAlice)
    requestId := some "r1"
    inputs := some [{ intent := "action.devices.QUERY"
                      payload := { devices := [⟨"d1"⟩, ⟨"d4"⟩, ⟨"d2"⟩] } }] }

/-- A QUERY request from alice for devices d1 and d2 only. -/
def reqQueryOwned : Req :=
  { authorization := some (.bearer tokenAlice)
    requestId := some "r2"
    inputs := some [{ intent := "action.devices.QUERY"
                      payload := { devices := [⟨"d1"⟩, ⟨"d2"⟩] } }] }

/-- A SYNC request from alice. -/
def reqSync : Req :=
  { authorization := some (.bearer tokenAlice)
    requestId := some "r3"
    inputs := some [{ intent := "action.devices.SYNC" }] }

/-- A DISCONNECT request from alice. -/
def reqDisconnect : Req :=
  { authorization := some (.bearer tokenAlice)
    requestId := some "r4"
    inputs := some [{ intent := "action.devices.DISCONNECT" }] }

/-- A request whose envelope is well-formed but whose `inputs` array is
empty, making `inputs[0].intent` throw inside the route's try-block. -/
def reqEmptyInputs : Req :=
  { authorization := some (.bearer tokenAlice)
    requestId := some "r5"
    inputs := some [] }

/-- An EXECUTE command group targeting an unknown device with two
command executions. -/
def groupGhost : CommandGroup :=
  { devices := [⟨"ghost"⟩]
    execution := [{ command := "action.devices.commands.OnOff", params := { onState := some true } },
                  { command := "action.devices.commands.OnOff", params := { onState := some false } }] }

/-! ## Helper lemmas -/

theorem objSet_of_not_mem {α : Type} (m : List (String × α)) (k : String) (v : α)
    (h : ∀ p ∈ m, p.1 ≠ k) : objSet m k v = m ++ [(k, v)] := by
  unfold objSet
  rw [if_neg]
  intro hany
  rcases List.any_eq_true.mp hany with ⟨p, hp, hpk⟩
  exact h p hp (by simpa using hpk)

theorem foldl_objSet_eq_map {α : Type} (f : String → α) :
    ∀ (rs : List DeviceRef) (acc : List (String × α)),
      (rs.map DeviceRef.id).Nodup →
      (∀ r ∈ rs, ∀ p ∈ acc, p.1 ≠ r.id) →
      rs.foldl (fun m r => objSet m r.id (f r.id)) acc =
        acc ++ rs.map (fun r => (r.id, f r.id))
  | [], acc, _, _ => by simp
  | r :: rs, acc, hnodup, hdisj => by
    have hcons : (∀ x ∈ rs, ¬x.id = r.id) ∧ (rs.map DeviceRef.id).Nodup := by
      simpa using hnodup
    have step : objSet acc r.id (f r.id) = acc ++ [(r.id, f r.id)] :=
      objSet_of_not_mem acc r.id (f r.id) (fun p hp => hdisj r (List.mem_cons_self r rs) p hp)
    have ih := foldl_objSet_eq_map f rs (acc ++ [(r.id, f r.id)]) hcons.2
      (by
        intro r2 hr2 p hp
        rcases List.mem_append.mp hp with hp1 | hp2
        · exact hdisj r2 (List.mem_cons_of_mem r hr2) p hp1
        · have hpv : p = (r.id, f r.id) := by simpa using hp2
          subst hpv
          exact fun hcontra => hcons.1 r2 hr2 hcontra.symm)
    simp only [List.foldl_cons, step, ih, List.append_assoc, List.map_cons]
    simp

theorem handleQueryStates_eq_map (env : Env) (accountLink : AccountLink)
    (requestedDevices : List DeviceRef)
    (hnodup : (requestedDevices.map DeviceRef.id).Nodup) :
    handleQueryStates env accountLink requestedDevices =
      requestedDevices.map (fun r => (r.id, queryDevice env accountLink r.id)) := by
  unfold handleQueryStates
  simpa using foldl_objSet_eq_map (queryDevice env accountLink) requestedDevices [] hnodup
    (by intro r _ p hp; simp at hp)

/-! ## Claim theorems -/

/-- C1: for every device, whatever its capability list, the SYNC
translation `convertToGoogleDevice` is total and its device type and
trait list follow the specification's priority order with first match
winning: light/dimmer → LIGHT with OnOff (plus Brightness exactly when
dimmer is present); else fan/speed → FAN with OnOff+FanSpeed; else
outlet → OUTLET with OnOff; else the OUTLET/OnOff fallback. -/
theorem convertToGoogleDevice_matches_policy (device : Device) :
    ((convertToGoogleDevice device).type, (convertToGoogleDevice device).traits) =
      specDeviceTypeTraits device.capabilities := by
  cases hl : device.capabilities.contains "light" <;>
  cases hd : device.capabilities.contains "dimmer" <;>
  cases hf : device.capabilities.contains "fan" <;>
  cases hs : device.capabilities.contains "speed" <;>
  cases ho : device.capabilities.contains "outlet" <;>
    simp_all [convertToGoogleDevice, specDeviceTypeTraits]

/-- C4: for a fan-speed command against a device whose capability list
contains "fan" or "speed", the translation emits RPC method
`setFanSpeed` with the speed obtained by exact-match lookup of the
label (speed_0 … speed_5 → 0 … 5, any other label → 0) and echoes the
originally supplied label unchanged as `currentFanSpeedSetting`. -/
theorem setFanSpeed_translation (device : Device) (params : GParams)
    (hcap : (device.capabilities.contains "fan" || device.capabilities.contains "speed") = true) :
    convertGoogleCommandToRpc "action.devices.commands.SetFanSpeed" params device =
      some { method := "setFanSpeed"
             params := .fanSpeed (speedLookup params.fanSpeed)
             resultState := { currentFanSpeedSetting := params.fanSpeed } }
    ∧ (∀ n : Nat, n ≤ 5 → speedLookup (some ("speed_" ++ toString n)) = n)
    ∧ (∀ label : String,
        label ∉ ["speed_0", "speed_1", "speed_2", "speed_3", "speed_4", "speed_5"] →
        speedLookup (some label) = 0) := by
  have hcap2 : "fan" ∈ device.capabilities ∨ "speed" ∈ device.capabilities := by
    simpa using hcap
  refine ⟨?_, ?_, ?_⟩
  · simp only [convertGoogleCommandToRpc]
    rw [if_neg (by decide), if_pos trivial, if_pos hcap]
  · intro n hn
    interval_cases n <;> rfl
  · intro label hlabel
    simp only [List.mem_cons, List.not_mem_nil, or_false, not_or] at hlabel
    obtain ⟨h0, h1, h2, h3, h4, h5⟩ := hlabel
    simp [speedLookup, speedMap, List.lookup,
      beq_eq_false_iff_ne.mpr h0, beq_eq_false_iff_ne.mpr h1,
      beq_eq_false_iff_ne.mpr h2, beq_eq_false_iff_ne.mpr h3,
      beq_eq_false_iff_ne.mpr h4, beq_eq_false_iff_ne.mpr h5]

/-- Witness for C4 at the specification's own example: capabilities
["fan","speed"], label "speed_3" yields RPC params speed 3 and echoes
"speed_3". -/
theorem setFanSpeed_translation_witness :
    convertGoogleCommandToRpc "action.devices.commands.SetFanSpeed"
        { fanSpeed := some "speed_3" } deviceD2 =
      some { method := "setFanSpeed"
             params := .fanSpeed 3
             resultState := { currentFanSpeedSetting := some "speed_3" } } :=
  (setFanSpeed_translation deviceD2 { fanSpeed := some "speed_3" } (by decide)).1

/-- C5: a fan-speed command against a device lacking both "fan" and
"speed" translates to the unsupported sentinel (none), any command
outside the fixed vocabulary translates to the same sentinel, and the
EXECUTE loop converts that sentinel into a per-device
`functionNotSupported` error entry while continuing the batch. -/
theorem unsupported_commands_sentinel (device : Device) (params : GParams) (env : Env)
    (deviceId : String) (execution : Execution) (rest : List Execution)
    (hcap : (device.capabilities.contains "fan" || device.capabilities.contains "speed") = false)
    (hnone : convertGoogleCommandToRpc execution.command execution.params device = none) :
    convertGoogleCommandToRpc "action.devices.commands.SetFanSpeed" params device = none
    ∧ (∀ cmd : String,
        cmd ∉ ["action.devices.commands.OnOff", "action.devices.commands.SetFanSpeed",
               "action.devices.commands.BrightnessAbsolute"] →
        convertGoogleCommandToRpc cmd params device = none)
    ∧ runExecutions env device deviceId (execution :: rest) =
        (ExecEntry.error [deviceId] "functionNotSupported" ::
            (runExecutions env device deviceId rest).1,
          (runExecutions env device deviceId rest).2) := by
  refine ⟨?_, ?_, ?_⟩
  · simp only [convertGoogleCommandToRpc]
    rw [if_neg (by decide), if_pos trivial, if_neg (by simpa using hcap)]
  · intro cmd hcmd
    simp only [List.mem_cons, List.not_mem_nil, or_false, not_or] at hcmd
    obtain ⟨hc1, hc2, hc3⟩ := hcmd
    simp [convertGoogleCommandToRpc, hc1, hc2, hc3]
  · simp [runExecutions, hnone]

/-- Witness for C5: the dimmable light deviceD1 lacks fan/speed, the
SetFanSpeed and an out-of-vocabulary command both translate to the
sentinel, and the EXECUTE loop yields a `functionNotSupported` entry
followed by the translation of the rest of the batch. -/
theorem unsupported_commands_sentinel_witness :
    convertGoogleCommandToRpc "action.devices.commands.SetFanSpeed"
        { fanSpeed := some "speed_3" } deviceD1 = none
    ∧ convertGoogleCommandToRpc "action.devices.commands.ThermostatSetMode"
        { fanSpeed := some "speed_3" } deviceD1 = none
    ∧ runExecutions envOk deviceD1 "d1"
        [{ command := "action.devices.commands.SetFanSpeed"
           params := { fanSpeed := some "speed_3" } }] =
        ([ExecEntry.error ["d1"] "functionNotSupported"], none) := by
  have h := unsupported_commands_sentinel deviceD1 { fanSpeed := some "speed_3" } envOk "d1"
    { command := "action.devices.commands.SetFanSpeed", params := { fanSpeed := some "speed_3" } }
    [] (by decide) (by decide)
  exact ⟨h.1, h.2.1 "action.devices.commands.ThermostatSetMode" (by decide), h.2.2⟩

/-- C2 counterexample: with the Gateway down for every call, a QUERY for
the caller's own devices d1 and d2 produces SUCCESS entries (state
derived from absent telemetry), not `hardError` entries — because the
service wrappers catch Gateway failures and return null. -/
theorem query_gateway_failure_counterexample :
    envGwDown.gw.telemetryResult "tb1" queryKeys = .error { message := "Network Error" }
    ∧ envGwDown.gw.attributesResult "tb1" "SERVER_SCOPE" = .error { message := "Network Error" }
    ∧ handleQuery envGwDown reqQueryOwned =
        { status := 200, requestId := some "r2"
          payload := .queryPayload
            [("d1", QueryEntry.success false { onState := false, currentFanSpeedSetting := none }),
             ("d2", QueryEntry.success true { onState := false, currentFanSpeedSetting := none })] }
    ∧ (handleQueryStates envGwDown linkAlice [⟨"d1"⟩, ⟨"d2"⟩]).lookup "d1" ≠
        some (QueryEntry.error "hardError") := by
  refine ⟨rfl, rfl, by decide, by decide⟩

/-- C2 (amended): when the requested device is found and owned, the
per-device entry is a SUCCESS entry computed from the service results in
every case — a failed Gateway call comes back as absent telemetry and
yields SUCCESS with on = false, never `hardError`; a `hardError` entry
appears exactly when the per-device processing throws (e.g. the registry
lookup); and the rest of the batch is always processed, each device
independently. -/
theorem query_gateway_failure_soft (env : Env) (accountLink : AccountLink)
    (deviceId : String) (device : Device)
    (hexn : env.findExn deviceId = none)
    (hfound : DeviceModel.findByUuid env.db deviceId = some device)
    (howner : device.owner_user_id = accountLink.user_id) :
    queryDevice env accountLink deviceId =
      .success (device.is_online == 1)
        (convertToGoogleState device
          (ThingsboardService.getLatestTelemetry env.gw device.thingsboard_device_id queryKeys)
          (ThingsboardService.getDeviceAttributes env.gw device.thingsboard_device_id
            "SERVER_SCOPE"))
    ∧ (∀ e : Exn,
        env.gw.telemetryResult device.thingsboard_device_id queryKeys = .error e →
        queryDevice env accountLink deviceId =
          .success (device.is_online == 1) { onState := false, currentFanSpeedSetting := none })
    ∧ (∀ id2 : String, env.findExn id2 = none →
        queryDevice env accountLink id2 ≠ .error "hardError")
    ∧ (∀ id2 : String, ∀ e : Exn, env.findExn id2 = some e →
        queryDevice env accountLink id2 = .error "hardError")
    ∧ (∀ requestedDevices : List DeviceRef,
        (requestedDevices.map DeviceRef.id).Nodup →
        handleQueryStates env accountLink requestedDevices =
          requestedDevices.map (fun r => (r.id, queryDevice env accountLink r.id))) := by
  refine ⟨?_, ?_, ?_, ?_, ?_⟩
  · simp [queryDevice, queryDeviceBody, findByUuidChecked, hexn, hfound, howner]
  · intro e he
    simp [queryDevice, queryDeviceBody, findByUuidChecked, hexn, hfound, howner,
      ThingsboardService.getLatestTelemetry, he, convertToGoogleState]
  · intro id2 h2
    rcases hfind : DeviceModel.findByUuid env.db id2 with _ | device2
    · simp [queryDevice, queryDeviceBody, findByUuidChecked, h2, hfind]
    · by_cases h3 : device2.owner_user_id != accountLink.user_id
      · simp [queryDevice, queryDeviceBody, findByUuidChecked, h2, hfind, h3]
      · simp [queryDevice, queryDeviceBody, findByUuidChecked, h2, hfind, h3]
  · intro id2 e h2
    simp [queryDevice, queryDeviceBody, findByUuidChecked, h2]
  · exact fun requestedDevices h => handleQueryStates_eq_map env accountLink requestedDevices h

/-- Witness for C2's amended statement: the owned device d1 with the
Gateway down yields a SUCCESS entry with on = false. -/
theorem query_gateway_failure_soft_witness :
    queryDevice envGwDown linkAlice "d1" =
      .success false { onState := false, currentFanSpeedSetting := none } :=
  (query_gateway_failure_soft envGwDown linkAlice "d1" deviceD1 rfl (by decide) rfl).2.1
    { message := "Network Error" } rfl

/-- C6: in a QUERY batch with distinct device identifiers, a device K
that is absent from the registry or owned by a different user gets
exactly one ERROR/`deviceNotFound` entry, and the response maps every
requested identifier to its own independently computed result. -/
theorem query_not_owned_single_entry (env : Env) (accountLink : AccountLink) (req : Req)
    (agentUserId : String) (input : GInput) (restInputs : List GInput) (K : DeviceRef)
    (hauth : extractAgentUserId req = some agentUserId)
    (hlink : GoogleAccountLinkModel.findByAgentUserId env.db agentUserId = some accountLink)
    (hinputs : req.inputs = some (input :: restInputs))
    (hnodup : (input.payload.devices.map DeviceRef.id).Nodup)
    (hK : K ∈ input.payload.devices)
    (hKexn : env.findExn K.id = none)
    (hKmiss : (DeviceModel.findByUuid env.db K.id).all
        (fun d => d.owner_user_id != accountLink.user_id) = true) :
    handleQuery env req =
      { status := 200, requestId := req.requestId
        payload := .queryPayload (input.payload.devices.map
          (fun r => (r.id, queryDevice env accountLink r.id))) }
    ∧ queryDevice env accountLink K.id = .error "deviceNotFound"
    ∧ (input.payload.devices.map
        (fun r => (r.id, queryDevice env accountLink r.id))).countP
          (fun p => p.1 == K.id) = 1 := by
  refine ⟨?_, ?_, ?_⟩
  · simp [handleQuery, hauth, hlink, hinputs,
      handleQueryStates_eq_map env accountLink input.payload.devices hnodup]
  · rcases hfind : DeviceModel.findByUuid env.db K.id with _ | device
    · simp [queryDevice, queryDeviceBody, findByUuidChecked, hKexn, hfind]
    · have hne : (device.owner_user_id != accountLink.user_id) = true := by
        rw [hfind] at hKmiss
        simpa [Option.all] using hKmiss
      simp [queryDevice, queryDeviceBody, findByUuidChecked, hKexn, hfind, hne]
  · rw [List.countP_map]
    have h1 : (input.payload.devices.map DeviceRef.id).count K.id = 1 :=
      List.count_eq_one_of_mem hnodup (List.mem_map_of_mem DeviceRef.id hK)
    rw [List.count, List.countP_map] at h1
    simpa using h1

/-- Witness for C6: the batch [d1, d4, d2] where d4 belongs to another
user yields exactly one `deviceNotFound` entry for d4 and independent
SUCCESS entries for d1 and d2. -/
theorem query_not_owned_single_entry_witness :
    handleQuery envOk reqQuery =
      { status := 200, requestId := some "r1"
        payload := .queryPayload
          [("d1", QueryEntry.success false { onState := false, currentFanSpeedSetting := none }),
           ("d4", QueryEntry.error "deviceNotFound"),
           ("d2", QueryEntry.success true { onState := false, currentFanSpeedSetting := none })] }
    ∧ queryDevice envOk linkAlice "d4" = QueryEntry.error "deviceNotFound" := by
  have h := query_not_owned_single_entry envOk linkAlice reqQuery "alice"
    { intent := "action.devices.QUERY", payload := { devices := [⟨"d1"⟩, ⟨"d4"⟩, ⟨"d2"⟩] } }
    [] ⟨"d4"⟩ (by decide) (by decide) rfl (by decide) (by decide) rfl (by decide)
  exact ⟨h.1.trans (by decide), h.2.1⟩

theorem runExecutions_all_ok (env : Env) (device : Device) (deviceId : String) :
    ∀ executions : List Execution,
      (∀ e ∈ executions, ∀ rpc : RpcCommand,
        convertGoogleCommandToRpc e.command e.params device = some rpc →
        env.gw.rpcResult device.thingsboard_device_id rpc.method rpc.params.key = .ok ()) →
      (runExecutions env device deviceId executions).1.length = executions.length
      ∧ (runExecutions env device deviceId executions).2 = none
  | [], _ => ⟨rfl, rfl⟩
  | e :: rest, h => by
    have ih := runExecutions_all_ok env device deviceId rest
      (fun e2 he2 rpc hrpc => h e2 (List.mem_cons_of_mem e he2) rpc hrpc)
    rcases hrun : runExecutions env device deviceId rest with ⟨entries, exn⟩
    rw [hrun] at ih
    rcases hconv : convertGoogleCommandToRpc e.command e.params device with _ | rpc
    · simpa [runExecutions, hconv, hrun] using ih
    · have hok := h e (List.mem_cons_self e rest) rpc hconv
      simpa [runExecutions, hconv, hrun, ThingsboardService.sendRpcCommand, hok] using ih

/-- C3 counterexample: the EXECUTE batch pairs the unknown device
"ghost" with two command executions — two (device, execution) pairs —
yet the response contains a single `deviceNotFound` entry, not two. -/
theorem execute_pair_entries_counterexample :
    groupGhost.execution.length = 2
    ∧ handleExecuteResults envOk linkAlice [groupGhost] =
        [ExecEntry.error ["ghost"] "deviceNotFound"]
    ∧ (handleExecuteResults envOk linkAlice [groupGhost]).length ≠ 2 := by
  refine ⟨rfl, by decide, by decide⟩

/-- C3 (amended): a device that is absent or fails the ownership check
yields exactly one `deviceNotFound` entry for its whole pair group,
regardless of how many command executions accompany it; one entry per
(device, execution) pair is produced only for devices that are found,
owned, and whose issued RPCs all succeed. -/
theorem execute_entry_counts (env : Env) (accountLink : AccountLink)
    (deviceId : String) (executions : List Execution) :
    (env.findExn deviceId = none →
      (DeviceModel.findByUuid env.db deviceId).all
        (fun d => d.owner_user_id != accountLink.user_id) = true →
      execDevice env accountLink deviceId executions =
        [ExecEntry.error [deviceId] "deviceNotFound"])
    ∧ (∀ device : Device, env.findExn deviceId = none →
        DeviceModel.findByUuid env.db deviceId = some device →
        device.owner_user_id = accountLink.user_id →
        (∀ e ∈ executions, ∀ rpc : RpcCommand,
          convertGoogleCommandToRpc e.command e.params device = some rpc →
          env.gw.rpcResult device.thingsboard_device_id rpc.method rpc.params.key = .ok ()) →
        (execDevice env accountLink deviceId executions).length = executions.length) := by
  constructor
  · intro hexn hmiss
    rcases hfind : DeviceModel.findByUuid env.db deviceId with _ | device
    · simp [execDevice, findByUuidChecked, hexn, hfind]
    · have hne : (device.owner_user_id != accountLink.user_id) = true := by
        rw [hfind] at hmiss
        simpa [Option.all] using hmiss
      simp [execDevice, findByUuidChecked, hexn, hfind, hne]
  · intro device hexn hfind howner hok
    have hrun := runExecutions_all_ok env device deviceId executions hok
    rcases h2 : runExecutions env device deviceId executions with ⟨entries, exn⟩
    rw [h2] at hrun
    simp only at hrun
    simp [execDevice, findByUuidChecked, hexn, hfind, howner, h2, hrun.1, hrun.2]

/-- Witness for C3's amended statement: the unknown device "ghost"
paired with two executions yields one entry, while the owned device d1
paired with the same two executions yields two entries. -/
theorem execute_entry_counts_witness :
    execDevice envOk linkAlice "ghost" groupGhost.execution =
      [ExecEntry.error ["ghost"] "deviceNotFound"]
    ∧ (execDevice envOk linkAlice "d1" groupGhost.execution).length = 2 := by
  refine ⟨(execute_entry_counts envOk linkAlice "ghost" groupGhost.execution).1 rfl (by decide), ?_⟩
  have h := (execute_entry_counts envOk linkAlice "d1" groupGhost.execution).2 deviceD1 rfl
    (by decide) rfl (fun e he rpc hrpc => rfl)
  simpa using h

theorem disconnect_idem (db : Db) (a : String) :
    GoogleAccountLinkModel.disconnect (GoogleAccountLinkModel.disconnect db a) a =
      GoogleAccountLinkModel.disconnect db a := by
  unfold GoogleAccountLinkModel.disconnect
  simp only [List.map_map]
  refine congrArg (Db.mk db.devices) ?_
  apply List.map_congr_left
  intro l _
  by_cases h : l.google_agent_user_id == a
  · simp [Function.comp, h]
  · simp [Function.comp, h]

/-- C7: `handleDisconnect` answers with a success-shaped empty-payload
response in every case (unresolvable bearer, nonexistent or already
inactive link, thrown registry update, repeated call); it never emits
an error code; an existing link is soft-deleted (rows preserved, the
matching rows marked inactive) rather than removed; and a second
consecutive call returns the same response and leaves the state
unchanged. -/
theorem disconnect_always_empty_success (env : Env) (req : Req) :
    (handleDisconnect env req).2 =
      { status := 200, requestId := req.requestId, payload := .emptyPayload }
    ∧ (handleDisconnect env req).1.db.links.length = env.db.links.length
    ∧ (handleDisconnect env req).1.db.devices = env.db.devices
    ∧ (handleDisconnect ((handleDisconnect env req).1) req).2 = (handleDisconnect env req).2
    ∧ (∀ agentUserId : String, extractAgentUserId req = some agentUserId →
        env.disconnectExn = none →
        ∀ l ∈ (handleDisconnect env req).1.db.links,
          l.google_agent_user_id = agentUserId → l.is_active = false)
    ∧ (handleDisconnect ((handleDisconnect env req).1) req).1.db =
        (handleDisconnect env req).1.db := by
  rcases hext : extractAgentUserId req with _ | agentUserId
  · simp [handleDisconnect, hext]
  · rcases hexn : env.disconnectExn with _ | e
    · refine ⟨?_, ?_, ?_, ?_, ?_, ?_⟩
      · simp [handleDisconnect, hext, hexn]
      · simp [handleDisconnect, hext, hexn, GoogleAccountLinkModel.disconnect]
      · simp [handleDisconnect, hext, hexn, GoogleAccountLinkModel.disconnect]
      · simp [handleDisconnect, hext, hexn]
      · intro a2 hext2 _ l hl hla
        obtain rfl : agentUserId = a2 := by injection hext2
        simp only [handleDisconnect, hext, hexn] at hl
        simp only [GoogleAccountLinkModel.disconnect] at hl
        obtain ⟨l0, hl0, rfl⟩ := List.mem_map.mp hl
        by_cases hmatch : l0.google_agent_user_id = agentUserId
        · simp [hmatch]
        · simp only [hmatch, beq_iff_eq, if_false, if_neg hmatch] at hla
      · simp [handleDisconnect, hext, hexn, disconnect_idem]
    · simp [handleDisconnect, hext, hexn]

/-- Witness for C7: disconnecting alice answers the empty-payload
success and marks her link inactive. -/
theorem disconnect_always_empty_success_witness :
    (handleDisconnect envOk reqDisconnect).2 =
      { status := 200, requestId := some "r4", payload := .emptyPayload }
    ∧ (∀ l ∈ (handleDisconnect envOk reqDisconnect).1.db.links,
        l.google_agent_user_id = "alice" → l.is_active = false) := by
  have h := disconnect_always_empty_success envOk reqDisconnect
  exact ⟨h.1, fun l hl hla => h.2.2.2.2.1 "alice" rfl rfl l hl hla⟩

/-- C8 counterexample: with NODE_ENV set to "production", a request
whose try-block throws (empty `inputs` array) is answered with the
internal error message in `debugString` — the fulfillment route never
consults NODE_ENV, so nothing is swallowed to a generic message in
production. -/
theorem envelope_production_debug_counterexample :
    envProd.nodeEnv = "production"
    ∧ (fulfillmentRoute envProd reqEmptyInputs).2 =
        { status := 500, requestId := some "r5"
          payload := .errorCode "hardError" (some undefinedIntentMsg) }
    ∧ (fulfillmentRoute envProd reqEmptyInputs).2.payload ≠
        .errorCode "hardError" (some "An error occurred") := by
  refine ⟨rfl, by decide, by decide⟩

/-- C8 (amended): every exception reaching the envelope boundary is
caught and converted into a response carrying the request's requestId
and errorCode `hardError` — no exception propagates — but the response
always includes the internal message as `debugString`, in production as
in development. -/
theorem envelope_catch_hardError (env : Env) (req : Req) :
    (∀ e : Exn, routeBody env req = .error e →
      fulfillmentRoute env req =
        (env, { status := 500, requestId := req.requestId
                payload := .errorCode "hardError" (some e.message) }))
    ∧ (∀ result : Env × HttpResponse,
        routeBody env req = .ok result → fulfillmentRoute env req = result) := by
  constructor
  · intro e he
    simp [fulfillmentRoute, he]
  · intro result hr
    simp [fulfillmentRoute, hr]

/-- Witness for C8's amended statement at the production environment
and the empty-inputs request. -/
theorem envelope_catch_hardError_witness :
    fulfillmentRoute envProd reqEmptyInputs =
      (envProd, { status := 500, requestId := some "r5"
                  payload := .errorCode "hardError" (some undefinedIntentMsg) }) :=
  (envelope_catch_hardError envProd reqEmptyInputs).1 { message := undefinedIntentMsg } rfl

/-- C9: for an authenticated SYNC request, the response lists one
descriptor per device for exactly the active devices owned by the
linked user (a permutation of the registry filter), in ascending
provisioning-time order. -/
theorem sync_returns_owned_active_sorted (env : Env) (req : Req) (agentUserId : String)
    (accountLink : AccountLink)
    (hauth : extractAgentUserId req = some agentUserId)
    (hlink : GoogleAccountLinkModel.findByAgentUserId env.db agentUserId = some accountLink) :
    (handleSync env req).2 =
      { status := 200, requestId := req.requestId
        payload := .syncPayload agentUserId
          ((DeviceModel.findAllForSync env.db accountLink.user_id).map convertToGoogleDevice) }
    ∧ (DeviceModel.findAllForSync env.db accountLink.user_id).Perm
        (env.db.devices.filter (fun d => d.owner_user_id == accountLink.user_id && d.is_active))
    ∧ (DeviceModel.findAllForSync env.db accountLink.user_id).Sorted
        (fun a b => a.provisioned_at ≤ b.provisioned_at) := by
  refine ⟨?_, ?_, ?_⟩
  · simp [handleSync, hauth, hlink]
  · exact List.mergeSort_perm _ _
  · have h := @List.sorted_mergeSort Device
      (fun a b : Device => decide (a.provisioned_at ≤ b.provisioned_at))
      (fun a b c hab hbc => by
        simp only [decide_eq_true_eq] at hab hbc ⊢
        exact le_trans hab hbc)
      (fun a b => by
        simp only [Bool.or_eq_true, decide_eq_true_eq]
        exact Nat.le_total a.provisioned_at b.provisioned_at)
      (env.db.devices.filter (fun d => d.owner_user_id == accountLink.user_id && d.is_active))
    exact h.imp (fun hab => of_decide_eq_true hab)

/-- Witness for C9: alice's SYNC over the fixture registry returns the
two active owned devices, sorted by provisioning time (d2 before d1),
excluding the soft-deleted d3 and the foreign d4. -/
theorem sync_returns_owned_active_sorted_witness :
    (handleSync envOk reqSync).2 =
      { status := 200, requestId := some "r3"
        payload := .syncPayload "alice"
          ((DeviceModel.findAllForSync envOk.db 1).map convertToGoogleDevice) }
    ∧ DeviceModel.findAllForSync envOk.db 1 = [deviceD2, deviceD1] := by
  have h := sync_returns_owned_active_sorted envOk reqSync "alice" linkAlice rfl (by decide)
  refine ⟨h.1, ?_⟩
  have hfil : envOk.db.devices.filter (fun d => d.owner_user_id == 1 && d.is_active) =
      [deviceD1, deviceD2] := by decide
  unfold DeviceModel.findAllForSync
  rw [hfil]
  simp [List.mergeSort, List.merge, deviceD1, deviceD2]

theorem findByAgentUserId_isSome_iff (db : Db) (a : String) :
    (GoogleAccountLinkModel.findByAgentUserId db a).isSome = true ↔
      ∃ l ∈ db.links, l.google_agent_user_id = a ∧ l.is_active = true := by
  unfold GoogleAccountLinkModel.findByAgentUserId
  rcases hfil : db.links.filter (fun l => l.google_agent_user_id == a && l.is_active)
    with _ | ⟨x, xs⟩
  · rw [hfil]
    simp only [List.head?_nil, Option.isSome_none, Bool.false_eq_true, false_iff, not_exists]
    intro l
    intro hcontra
    obtain ⟨hl, hla, hact⟩ := hcontra
    have hmem : l ∈ db.links.filter (fun l => l.google_agent_user_id == a && l.is_active) :=
      List.mem_filter.mpr ⟨hl, by simp [hla, hact]⟩
    rw [hfil] at hmem
    cases hmem
  · rw [hfil]
    simp only [List.head?_cons, Option.isSome_some, true_iff]
    have hx : x ∈ db.links.filter (fun l => l.google_agent_user_id == a && l.is_active) := by
      rw [hfil]; exact List.mem_cons_self x xs
    have hprops := List.mem_filter.mp hx
    refine ⟨x, hprops.1, ?_, ?_⟩
    · have := hprops.2
      simp only [Bool.and_eq_true, beq_iff_eq] at this
      exact this.1
    · have := hprops.2
      simp only [Bool.and_eq_true, beq_iff_eq] at this
      exact this.2

/-- C10: caller identity is obtained by decoding, not verifying, the
bearer JWT: for any decodable token the extracted identity is the
payload's (non-falsy) agentUserId claim, identical across any two
signatures and validity flags; and the request is then accepted exactly
when an active account link exists for that identity (shown on
`handleSync`: the response is auth-failure-free iff such a link
exists). -/
theorem bearer_identity_decode_only (env : Env) (req : Req)
    (payload : JwtPayload) (sig1 sig2 : String) (valid1 valid2 : Bool)
    (rid : Option String) (inputs : Option (List GInput))
    (s : String) (agentUserId : String)
    (hs : payload.agentUserId = some s) (hsne : s ≠ "")
    (hext : extractAgentUserId req = some agentUserId) :
    extractAgentUserId { authorization := some (.bearer (.decodable payload sig1 valid1))
                         requestId := rid, inputs := inputs } =
      extractAgentUserId { authorization := some (.bearer (.decodable payload sig2 valid2))
                           requestId := rid, inputs := inputs }
    ∧ extractAgentUserId { authorization := some (.bearer (.decodable payload sig1 valid1))
                           requestId := rid, inputs := inputs } = some s
    ∧ (((handleSync env req).2.payload ≠ .errorCode "authFailure" none) ↔
        ∃ l ∈ env.db.links, l.google_agent_user_id = agentUserId ∧ l.is_active = true) := by
  refine ⟨rfl, ?_, ?_⟩
  · simp [extractAgentUserId, jwtDecode, jsOrNull, hs, hsne]
  · rw [← findByAgentUserId_isSome_iff]
    rcases hfind : GoogleAccountLinkModel.findByAgentUserId env.db agentUserId with _ | link
    · simp [handleSync, hext, hfind]
    · simp [handleSync, hext, hfind]

/-- Witness for C10: two tokens for "alice" differing in signature and
validity extract the same identity, and alice's SYNC is accepted
because her active link exists. -/
theorem bearer_identity_decode_only_witness :
    extractAgentUserId
        { authorization := some (.bearer (.decodable { agentUserId := some "alice" } "sigA" false)),
          requestId := some "rW", inputs := none } =
      extractAgentUserId
        { authorization := some (.bearer (.decodable { agentUserId := some "alice" } "sigB" true)),
          requestId := some "rW", inputs := none }
    ∧ extractAgentUserId
        { authorization := some (.bearer (.decodable { agentUserId := some "alice" } "sigA" false)),
          requestId := some "rW", inputs := none } = some "alice"
    ∧ (((handleSync envOk reqSync).2.payload ≠ .errorCode "authFailure" none) ↔
        ∃ l ∈ envOk.db.links, l.google_agent_user_id = "alice" ∧ l.is_active = true) :=
  bearer_identity_decode_only envOk reqSync { agentUserId := some "alice" } "sigA" "sigB"
    false true (some "rW") none "alice" "alice" rfl (by decide) rfl
